import Mathlib

/-!
Verification of the Devcade flatpak-bundle decoder
(`src/games/flatpak.rs`) and of the ref-validation portion of the
upload workflow (`src/games/routes.rs`).

The decoder operates on GVariant values produced by
`Variant::from_data_with_type`.  We embed the decoded value tree as the
inductive type `Value` below: tuples, arrays and dictionary entries are
containers; a `boxed` node is a variant-typed (type-erased) wrapper; the
scalars appearing in the bundle schema are bytes, unsigned 64-bit
integers and strings.  The glib accessors used by the Rust code
(`child_value`, `n_children`, `is_container`, `as_variant`,
`String::from_variant`, `Vec::<u8>::from_variant`) are embedded as the
functions of the same names.
-/

namespace Devcade

/-- A decoded GVariant value, as navigated by the decoder. -/
inductive Value where
  | tuple (cs : List Value)
  | array (cs : List Value)
  | dictEntry (k v : Value)
  | boxed (inner : Value)
  | byteV (b : Nat)
  | uint64V (n : Nat)
  | stringV (s : String)

/-- The ordered children of a container value (empty for scalars).
A dictionary entry has the two children key and value; a variant-typed
wrapper has exactly one child, its payload. -/
def Value.children : Value → List Value
  | .tuple cs => cs
  | .array cs => cs
  | .dictEntry k v => [k, v]
  | .boxed inner => [inner]
  | _ => []

/-- glib `g_variant_n_children`: the number of children of a container. -/
def Value.n_children (v : Value) : Nat :=
  v.children.length

/-- glib `g_variant_get_child_value`: positional access into a container.
All container access in the decoder is schema-driven with the index in
range; out-of-range access is modelled by an arbitrary default value. -/
def Value.child_value (v : Value) (i : Nat) : Value :=
  v.children.getD i (Value.uint64V 0)

/-- glib `g_variant_is_container`: true for tuples, arrays, dictionary
entries and variant-typed wrappers; false for scalars. -/
def Value.is_container : Value → Bool
  | .tuple _ => true
  | .array _ => true
  | .dictEntry _ _ => true
  | .boxed _ => true
  | _ => false

/-- glib `Variant::as_variant`: `some` of the payload when the value is
a variant-typed wrapper, `none` otherwise. -/
def Value.as_variant : Value → Option Value
  | .boxed inner => some inner
  | _ => none

/-- `String::from_variant`: decodes a string-typed value. -/
def string_from_variant : Value → Option String
  | .stringV s => some s
  | _ => none

/-- `Vec::<u8>::from_variant`: decodes a byte-array-typed value. -/
def bytes_from_variant : Value → Option (List Nat)
  | .array cs => cs.mapM (fun c => match c with
      | .byteV b => some b
      | _ => none)
  | _ => none

/-- The `match value.as_variant() { Some(v) => v, None => value }` step
of `get_metadata_key` (flatpak.rs lines 106-109): unwrap a variant
wrapper once, pass any other value through unchanged. -/
def unwrap_boxed_once (value : Value) : Value :=
  match value.as_variant with
  | some v => v
  | none => value

/-- `FlatpakMetadataError<T>`: the type parameter of the Rust enum lives
in the Lean result type, so `IncorrectFormat` carries only the key. -/
inductive FlatpakMetadataError where
  | MissingKey (key : String)
  | IncorrectFormat (key : String)

/-- `FlatpakDecodingError` from flatpak.rs lines 142-148. -/
inductive FlatpakDecodingError where
  | IncorrectFormat
  | MetadataNotContainer
  | MetadataChildNotContainer
  | BadChecksumLength

/-- `FlatpakFile`: a wrapper around the decoded root variant. -/
structure FlatpakFile where
  root : Value

/-- The `for index in 0..metadata.n_children()` validation loop of
`FlatpakFile::load` (flatpak.rs lines 124-129), as a recursive function
over the running index. -/
def metadataCheckLoop (metadata : Value) (index : Nat) :
    Except FlatpakDecodingError Unit :=
  if h : index < metadata.n_children then
    if !(metadata.child_value index).is_container
        || (metadata.child_value index).n_children ≠ 2 then
      Except.error FlatpakDecodingError.MetadataChildNotContainer
    else
      metadataCheckLoop metadata (index + 1)
  else
    Except.ok ()
termination_by metadata.n_children - index

/-- `FlatpakFile::load` (flatpak.rs lines 118-135), applied to the
variant decoded from the input buffer. -/
def FlatpakFile.load (variant : Value) :
    Except FlatpakDecodingError FlatpakFile :=
  if !(variant.child_value 0).is_container then
    Except.error FlatpakDecodingError.MetadataNotContainer
  else
    match metadataCheckLoop (variant.child_value 0) 0 with
    | Except.error e => Except.error e
    | Except.ok _ =>
      if !(variant.child_value 3).is_container
          || (variant.child_value 3).n_children ≠ 32 then
        Except.error FlatpakDecodingError.BadChecksumLength
      else
        Except.ok ⟨variant⟩

/-- The key-search loop of `FlatpakFile::get_metadata_key` (flatpak.rs
lines 101-115), generic over the `FromVariant` decode of the target
type `T`. -/
def getMetadataKeyLoop {α : Type} (dec : Value → Option α)
    (dict_array : Value) (key : String) (index : Nat) :
    Except FlatpakMetadataError α :=
  if _h : index < dict_array.n_children then
    match string_from_variant ((dict_array.child_value index).child_value 0) with
    | some candidate_key =>
      if candidate_key = key then
        match dec (unwrap_boxed_once ((dict_array.child_value index).child_value 1)) with
        | some value => Except.ok value
        | none => Except.error (FlatpakMetadataError.IncorrectFormat key)
      else
        getMetadataKeyLoop dec dict_array key (index + 1)
    | none => getMetadataKeyLoop dec dict_array key (index + 1)
  else
    Except.error (FlatpakMetadataError.MissingKey key)
termination_by dict_array.n_children - index

/-- `FlatpakFile::get_metadata_key` (flatpak.rs lines 96-117). -/
def FlatpakFile.get_metadata_key {α : Type} (f : FlatpakFile)
    (dec : Value → Option α) (key : String) :
    Except FlatpakMetadataError α :=
  getMetadataKeyLoop dec (f.root.child_value 0) key 0

/-- One lowercase hexadecimal digit, as produced by `hex::encode`. -/
def hexDigit (n : Nat) : Char :=
  if n < 10 then Char.ofNat (48 + n) else Char.ofNat (87 + n)

/-- The two lowercase hex digits of one byte. -/
def hexEncodeByte (b : Nat) : List Char :=
  [hexDigit (b / 16), hexDigit (b % 16)]

/-- `hex::encode`: lowercase hexadecimal rendering of a byte sequence. -/
def hexEncode (bs : List Nat) : String :=
  String.mk (List.flatten (bs.map hexEncodeByte))

/-- `FlatpakFile::get_hash` (flatpak.rs lines 137-139).  The Rust code
unwraps the byte-array decode of field 3; the `none` case models the
panic of that unwrap. -/
def FlatpakFile.get_hash (f : FlatpakFile) : Option String :=
  (bytes_from_variant (f.root.child_value 3)).map hexEncode

/-!
The two validation loops run over an index `0..n_children`.  For the
proofs we restate each as structural recursion over the list of
remaining children and prove the two forms equal.
-/

/-- The metadata-entry validation loop of `load`, as structural
recursion over the list of remaining entries. -/
def metadataCheckList : List Value → Except FlatpakDecodingError Unit
  | [] => Except.ok ()
  | child :: rest =>
    if !child.is_container || child.n_children ≠ 2 then
      Except.error FlatpakDecodingError.MetadataChildNotContainer
    else
      metadataCheckList rest

/-- The key-search loop of `get_metadata_key`, as structural recursion
over the list of remaining entries. -/
def lookupList {α : Type} (dec : Value → Option α) (key : String) :
    List Value → Except FlatpakMetadataError α
  | [] => Except.error (FlatpakMetadataError.MissingKey key)
  | entry :: rest =>
    match string_from_variant (entry.child_value 0) with
    | some candidate_key =>
      if candidate_key = key then
        match dec (unwrap_boxed_once (entry.child_value 1)) with
        | some value => Except.ok value
        | none => Except.error (FlatpakMetadataError.IncorrectFormat key)
      else
        lookupList dec key rest
    | none => lookupList dec key rest

theorem metadataCheckLoop_eq_list (v : Value) (i : Nat) :
    metadataCheckLoop v i = metadataCheckList (v.children.drop i) := by
  by_cases h : i < v.n_children
  · have hlt : i < v.children.length := h
    have hrec := metadataCheckLoop_eq_list v (i + 1)
    have hcv : v.child_value i = v.children[i] :=
      List.getD_eq_getElem v.children (Value.uint64V 0) hlt
    rw [metadataCheckLoop, dif_pos h, List.drop_eq_getElem_cons hlt]
    simp only [metadataCheckList, hcv, hrec]
  · rw [metadataCheckLoop, dif_neg h,
      List.drop_eq_nil_of_le (Nat.le_of_not_lt h)]
    rfl
termination_by v.n_children - i
decreasing_by omega

theorem getMetadataKeyLoop_eq_list {α : Type} (dec : Value → Option α)
    (v : Value) (key : String) (i : Nat) :
    getMetadataKeyLoop dec v key i = lookupList dec key (v.children.drop i) := by
  by_cases h : i < v.n_children
  · have hlt : i < v.children.length := h
    have hrec := getMetadataKeyLoop_eq_list dec v key (i + 1)
    have hcv : v.child_value i = v.children[i] :=
      List.getD_eq_getElem v.children (Value.uint64V 0) hlt
    rw [getMetadataKeyLoop, dif_pos h, List.drop_eq_getElem_cons hlt]
    simp only [lookupList, hcv, hrec]
  · rw [getMetadataKeyLoop, dif_neg h,
      List.drop_eq_nil_of_le (Nat.le_of_not_lt h)]
    rfl
termination_by v.n_children - i
decreasing_by omega

/-- `load` with its index loop replaced by the list recursion. -/
def loadList (variant : Value) : Except FlatpakDecodingError FlatpakFile :=
  if !(variant.child_value 0).is_container then
    Except.error FlatpakDecodingError.MetadataNotContainer
  else
    match metadataCheckList (variant.child_value 0).children with
    | Except.error e => Except.error e
    | Except.ok _ =>
      if !(variant.child_value 3).is_container
          || (variant.child_value 3).n_children ≠ 32 then
        Except.error FlatpakDecodingError.BadChecksumLength
      else
        Except.ok ⟨variant⟩

theorem load_eq_loadList (v : Value) : FlatpakFile.load v = loadList v := by
  unfold FlatpakFile.load loadList
  rw [metadataCheckLoop_eq_list, List.drop_zero]

theorem get_metadata_key_eq_lookupList {α : Type} (f : FlatpakFile)
    (dec : Value → Option α) (key : String) :
    f.get_metadata_key dec key
      = lookupList dec key (f.root.child_value 0).children := by
  unfold FlatpakFile.get_metadata_key
  rw [getMetadataKeyLoop_eq_list, List.drop_zero]

/-!
Helper predicates naming the two loop conditions, and basic facts about
the list-form loops.
-/

/-- The condition under which the metadata validation loop accepts one
entry: `child.is_container() && child.n_children() == 2`. -/
def goodMetadataChild (child : Value) : Bool :=
  child.is_container && child.n_children == 2

/-- Whether the key-search loop matches one entry against the requested
key: the key child decodes as a string equal to the requested key.  An
entry whose key child does not decode as a string never matches. -/
def entryMatchesKey (entry : Value) (key : String) : Bool :=
  match string_from_variant (entry.child_value 0) with
  | some candidate_key => candidate_key == key
  | none => false

theorem metadataCheckList_cons_good (c : Value) (rest : List Value)
    (h : goodMetadataChild c = true) :
    metadataCheckList (c :: rest) = metadataCheckList rest := by
  simp only [goodMetadataChild, Bool.and_eq_true, beq_iff_eq] at h
  simp [metadataCheckList, h.1, h.2]

theorem metadataCheckList_cons_bad (c : Value) (rest : List Value)
    (h : goodMetadataChild c = false) :
    metadataCheckList (c :: rest)
      = Except.error FlatpakDecodingError.MetadataChildNotContainer := by
  simp only [goodMetadataChild, Bool.and_eq_false_iff] at h
  rcases h with h | h
  · simp [metadataCheckList, h]
  · simp only [beq_eq_false_iff_ne, ne_eq] at h
    simp [metadataCheckList, h]

theorem metadataCheckList_append_good (pre rest : List Value)
    (h : ∀ e ∈ pre, goodMetadataChild e = true) :
    metadataCheckList (pre ++ rest) = metadataCheckList rest := by
  induction pre with
  | nil => rfl
  | cons p ps ih =>
    rw [List.cons_append,
      metadataCheckList_cons_good p _ (h p (List.mem_cons_self p ps)),
      ih fun e he => h e (List.mem_cons_of_mem p he)]

theorem metadataCheckList_ok_of_all_good (es : List Value)
    (h : ∀ e ∈ es, goodMetadataChild e = true) :
    metadataCheckList es = Except.ok () := by
  have := metadataCheckList_append_good es [] h
  simpa using this

theorem lookupList_cons_skip {α : Type} (dec : Value → Option α)
    (key : String) (e : Value) (rest : List Value)
    (h : entryMatchesKey e key = false) :
    lookupList dec key (e :: rest) = lookupList dec key rest := by
  unfold entryMatchesKey at h
  cases hsv : string_from_variant (e.child_value 0) with
  | none => simp [lookupList, hsv]
  | some ck =>
    rw [hsv] at h
    simp only [beq_eq_false_iff_ne, ne_eq] at h
    simp [lookupList, hsv, h]

theorem lookupList_cons_match {α : Type} (dec : Value → Option α)
    (key : String) (e : Value) (rest : List Value)
    (h : string_from_variant (e.child_value 0) = some key) :
    lookupList dec key (e :: rest)
      = match dec (unwrap_boxed_once (e.child_value 1)) with
        | some value => Except.ok value
        | none => Except.error (FlatpakMetadataError.IncorrectFormat key) := by
  simp [lookupList, h]

theorem lookupList_append_skip {α : Type} (dec : Value → Option α)
    (key : String) (pre rest : List Value)
    (h : ∀ p ∈ pre, entryMatchesKey p key = false) :
    lookupList dec key (pre ++ rest) = lookupList dec key rest := by
  induction pre with
  | nil => rfl
  | cons p ps ih =>
    rw [List.cons_append,
      lookupList_cons_skip dec key p _ (h p (List.mem_cons_self p ps)),
      ih fun e he => h e (List.mem_cons_of_mem p he)]

theorem lookupList_missing_of_no_match {α : Type} (dec : Value → Option α)
    (key : String) (es : List Value)
    (h : ∀ e ∈ es, entryMatchesKey e key = false) :
    lookupList dec key es
      = Except.error (FlatpakMetadataError.MissingKey key) := by
  have := lookupList_append_skip dec key es [] h
  simpa [lookupList] using this

theorem mapM_byteV (bs : List Nat) :
    List.mapM (fun c => match c with
      | Value.byteV b => some b
      | _ => none) (bs.map Value.byteV) = some bs := by
  induction bs with
  | nil => rfl
  | cons b rest ih =>
    rw [List.map_cons, List.mapM_cons, ih]
    rfl

theorem bytes_from_variant_map (bs : List Nat) :
    bytes_from_variant (Value.array (bs.map Value.byteV)) = some bs := by
  unfold bytes_from_variant
  exact mapM_byteV bs

/-- A lowercase hexadecimal digit character. -/
def isLowerHexChar (c : Char) : Bool :=
  ( '0' ≤ c && c ≤ '9' ) || ( 'a' ≤ c && c ≤ 'f' )

theorem hexDigit_isLowerHex : ∀ n, n < 16 → isLowerHexChar (hexDigit n) = true := by
  decide

theorem hexEncode_data_length (bs : List Nat) :
    (List.flatten (bs.map hexEncodeByte)).length = 2 * bs.length := by
  induction bs with
  | nil => rfl
  | cons b rest ih =>
    rw [List.map_cons, List.flatten_cons, List.length_append, ih]
    simp [hexEncodeByte]
    omega

theorem hexEncode_length (bs : List Nat) :
    (hexEncode bs).length = 2 * bs.length :=
  hexEncode_data_length bs

theorem hexEncode_chars (bs : List Nat) (h : ∀ b ∈ bs, b < 256) :
    ∀ c ∈ (hexEncode bs).data, isLowerHexChar c = true := by
  intro c hc
  have hc2 : c ∈ List.flatten (bs.map hexEncodeByte) := hc
  rw [List.mem_flatten] at hc2
  rcases hc2 with ⟨l, hl, hcl⟩
  rw [List.mem_map] at hl
  rcases hl with ⟨b, hb, rfl⟩
  have hblt := h b hb
  unfold hexEncodeByte at hcl
  simp only [List.mem_cons, List.not_mem_nil, or_false] at hcl
  rcases hcl with rfl | rfl
  · exact hexDigit_isLowerHex _ (Nat.div_lt_of_lt_mul (by omega))
  · exact hexDigit_isLowerHex _ (Nat.mod_lt _ (by omega))

theorem loadList_ok_of_valid (v : Value)
    (h0 : (v.child_value 0).is_container = true)
    (hm : metadataCheckList (v.child_value 0).children = Except.ok ())
    (h3c : (v.child_value 3).is_container = true)
    (h3n : (v.child_value 3).n_children = 32) :
    FlatpakFile.load v = Except.ok ⟨v⟩ := by
  rw [load_eq_loadList]
  unfold loadList
  rw [h0, hm]
  simp [h3c, h3n]

theorem metadataCheckList_cases (l : List Value) :
    metadataCheckList l = Except.ok ()
      ∨ metadataCheckList l
          = Except.error FlatpakDecodingError.MetadataChildNotContainer := by
  induction l with
  | nil => exact Or.inl rfl
  | cons c rest ih =>
    by_cases h : goodMetadataChild c = true
    · rw [metadataCheckList_cons_good c rest h]
      exact ih
    · exact Or.inr (metadataCheckList_cons_bad c rest (by
        simpa using h))

theorem load_ok_inv (v : Value) (f : FlatpakFile)
    (h : FlatpakFile.load v = Except.ok f) :
    f.root = v ∧ (v.child_value 0).is_container = true
      ∧ (v.child_value 3).is_container = true
      ∧ (v.child_value 3).n_children = 32 := by
  rw [load_eq_loadList] at h
  unfold loadList at h
  by_cases h0 : (v.child_value 0).is_container
  · rcases metadataCheckList_cases (v.child_value 0).children with hm | hm
    · by_cases h3c : (v.child_value 3).is_container
      · by_cases h3n : (v.child_value 3).n_children = 32
        · simp only [h0, hm, h3c, h3n] at h
          simp at h
          subst h
          exact ⟨rfl, h0, h3c, h3n⟩
        · simp [h0, hm, h3c, h3n] at h
      · simp [h0, hm, h3c] at h
    · simp [h0, hm] at h
  · simp [h0] at h

theorem loadList_result_cases (v : Value) :
    (∃ f, loadList v = Except.ok f)
      ∨ loadList v = Except.error FlatpakDecodingError.MetadataNotContainer
      ∨ loadList v = Except.error FlatpakDecodingError.MetadataChildNotContainer
      ∨ loadList v = Except.error FlatpakDecodingError.BadChecksumLength := by
  unfold loadList
  by_cases h0 : ((!(v.child_value 0).is_container) = true)
  · rw [if_pos h0]
    exact Or.inr (Or.inl rfl)
  · rw [if_neg h0]
    rcases metadataCheckList_cases (v.child_value 0).children with hm | hm
    · rw [hm]
      by_cases h3 : ((!(v.child_value 3).is_container
          || decide ((v.child_value 3).n_children ≠ 32)) = true)
      · rw [if_pos h3]
        exact Or.inr (Or.inr (Or.inr rfl))
      · rw [if_neg h3]
        exact Or.inl ⟨⟨v⟩, rfl⟩
    · rw [hm]
      exact Or.inr (Or.inr (Or.inl rfl))

theorem lookupList_congr_suffix {α : Type} (dec : Value → Option α)
    (key : String) (pre l1 l2 : List Value)
    (h : lookupList dec key l1 = lookupList dec key l2) :
    lookupList dec key (pre ++ l1) = lookupList dec key (pre ++ l2) := by
  induction pre with
  | nil => exact h
  | cons p ps ih =>
    rw [List.cons_append, List.cons_append]
    cases hsv : string_from_variant (p.child_value 0) with
    | none =>
      simp only [lookupList, hsv]
      exact ih
    | some ck =>
      by_cases hck : ck = key
      · simp [lookupList, hsv, hck]
      · simp only [lookupList, hsv, if_neg hck]
        exact ih

/-!
The ref-validation portion of `verify_and_upload_game`
(`src/games/routes.rs` lines 154-173).  The function decodes the
metadata key `"ref"` as a string, splits it on the slash character as
Rust `str::split` does, collects the pieces, and indexes the pieces at
positions 0 through 3.  Rust `Vec` indexing out of bounds panics; the
`panicked` outcome models that.
-/

/-- Rust `str::split(sep)` over the character list of a string: always
at least one piece, empty pieces kept. -/
def splitChar (sep : Char) : List Char → List (List Char)
  | [] => [[]]
  | c :: rest =>
    if c = sep then
      [] :: splitChar sep rest
    else
      match splitChar sep rest with
      | [] => [[c]]
      | piece :: pieces => (c :: piece) :: pieces

/-- `flatpak_ref.split(sep).collect::<Vec<_>>()`. -/
def rustSplit (s : String) (sep : Char) : List String :=
  (splitChar sep s.data).map String.mk

/-- The outcome of the ref-component checks: `panicked` is an
out-of-bounds `Vec` index, `rejected` is an early `Err` return with the
`GameError` reason, `accepted` reaches the upload call. -/
inductive RefCheckOutcome where
  | panicked
  | rejected (reason : String)
  | accepted

/-- The four component checks of `verify_and_upload_game` on the
decoded ref string (routes.rs lines 155-173). -/
def verifyRefComponents (uuid flatpak_ref : String) : RefCheckOutcome :=
  match (rustSplit flatpak_ref '/' )[0]? with
  | none => RefCheckOutcome.panicked
  | some c0 =>
    if c0 ≠ "app" then
      RefCheckOutcome.rejected "Flatpak must be of type app"
    else
      match (rustSplit flatpak_ref '/' )[1]? with
      | none => RefCheckOutcome.panicked
      | some c1 =>
        if c1 ≠ "edu.rit.csh.devcade.game.id-" ++ uuid then
          RefCheckOutcome.rejected
            ("Flatpak app id " ++ c1 ++ " must be "
              ++ ("edu.rit.csh.devcade.game.id-" ++ uuid))
        else
          match (rustSplit flatpak_ref '/' )[2]? with
          | none => RefCheckOutcome.panicked
          | some c2 =>
            if c2 ≠ "x86_64" then
              RefCheckOutcome.rejected "Flatpak architecture must be x86_64"
            else
              match (rustSplit flatpak_ref '/' )[3]? with
              | none => RefCheckOutcome.panicked
              | some c3 =>
                if c3 ≠ "master" then
                  RefCheckOutcome.rejected "Flatpak branch must be master"
                else
                  RefCheckOutcome.accepted

/-!
Concrete values used by the witnesses.
-/

/-- A metadata entry whose `"ref"` value is wrong-typed for a string
decode (it boxes an unsigned integer). -/
def wrongTypedRefEntry : Value :=
  Value.dictEntry (Value.stringV "ref") (Value.boxed (Value.uint64V 5))

/-- A metadata entry whose `"ref"` value decodes as a string. -/
def goodRefEntry : Value :=
  Value.dictEntry (Value.stringV "ref") (Value.boxed (Value.stringV "app/x/y/z"))

/-- A root with duplicate `"ref"` entries: the first wrong-typed, the
second well-typed (property P6 of the specification). -/
def dupKeyRoot : Value :=
  Value.tuple [Value.array [wrongTypedRefEntry, goodRefEntry], Value.uint64V 0,
    Value.array [], Value.array (List.replicate 32 (Value.byteV 0)),
    Value.uint64V 0, Value.uint64V 0]

/-- A root whose metadata field is a scalar and whose checksum is also
of the wrong length. -/
def scalarMetadataRoot : Value :=
  Value.tuple [Value.uint64V 7, Value.uint64V 0, Value.array [],
    Value.array (List.replicate 31 (Value.byteV 0)),
    Value.uint64V 0, Value.uint64V 0]

/-- A root with valid metadata but a 31-element checksum. -/
def shortChecksumRoot : Value :=
  Value.tuple [Value.array [goodRefEntry], Value.uint64V 0, Value.array [],
    Value.array (List.replicate 31 (Value.byteV 0)),
    Value.uint64V 0, Value.uint64V 0]

/-- A root whose metadata holds one entry with a non-string key and one
entry under a different key; there is no `"ref"` entry. -/
def noRefRoot : Value :=
  Value.tuple [Value.array [Value.dictEntry (Value.uint64V 7) (Value.boxed (Value.stringV "zzz")),
      Value.dictEntry (Value.stringV "name") (Value.boxed (Value.stringV "game"))],
    Value.uint64V 0, Value.array [],
    Value.array (List.replicate 32 (Value.byteV 0)),
    Value.uint64V 0, Value.uint64V 0]

/-- A root whose `"ref"` value is stored without any boxing. -/
def unboxedRefRoot : Value :=
  Value.tuple [Value.array [Value.dictEntry (Value.stringV "ref") (Value.stringV "app/x/y/z")],
    Value.uint64V 0, Value.array [],
    Value.array (List.replicate 32 (Value.byteV 0)),
    Value.uint64V 0, Value.uint64V 0]

/-- A root whose `"ref"` value is boxed once. -/
def boxedRefRoot : Value :=
  Value.tuple [Value.array [goodRefEntry], Value.uint64V 0, Value.array [],
    Value.array (List.replicate 32 (Value.byteV 0)),
    Value.uint64V 0, Value.uint64V 0]

/-- A valid root whose `"ref"` value is the single component `"app"`,
with no slash. -/
def shortRefRoot : Value :=
  Value.tuple [Value.array [Value.dictEntry (Value.stringV "ref") (Value.boxed (Value.stringV "app"))],
    Value.uint64V 0, Value.array [],
    Value.array (List.replicate 32 (Value.byteV 0)),
    Value.uint64V 0, Value.uint64V 0]

/-- A valid root with an all-zero checksum and no metadata entries. -/
def zeroHashRoot : Value :=
  Value.tuple [Value.array [], Value.uint64V 0, Value.array [],
    Value.array ((List.replicate 32 0).map Value.byteV),
    Value.uint64V 0, Value.uint64V 0]

/-!
The claims.
-/

/-- C1: when the first metadata entry whose key decodes to the
requested key holds a value that fails to decode as the requested type,
`get_metadata_key` returns IncorrectFormat for that key whatever
entries follow it, duplicates with well-typed values included: the
first positional key match governs the outcome and scanning never
continues past it. -/
theorem c1_first_match_governs {α : Type} (dec : Value → Option α)
    (f : FlatpakFile) (key : String) (pre : List Value) (e : Value)
    (rest : List Value)
    (hmeta : (f.root.child_value 0).children = pre ++ e :: rest)
    (hpre : ∀ p ∈ pre, entryMatchesKey p key = false)
    (hkey : string_from_variant (e.child_value 0) = some key)
    (hfail : dec (unwrap_boxed_once (e.child_value 1)) = none) :
    f.get_metadata_key dec key
      = Except.error (FlatpakMetadataError.IncorrectFormat key) := by
  rw [get_metadata_key_eq_lookupList, hmeta,
    lookupList_append_skip dec key pre _ hpre,
    lookupList_cons_match dec key e rest hkey, hfail]

/-- Witness for C1: the duplicate-key metadata of property P6, with the
wrong-typed entry first; the lookup fails with IncorrectFormat even
though the later duplicate would decode. -/
theorem c1_witness :
    string_from_variant (wrongTypedRefEntry.child_value 0) = some "ref"
    ∧ string_from_variant (unwrap_boxed_once (wrongTypedRefEntry.child_value 1)) = none
    ∧ FlatpakFile.get_metadata_key ⟨dupKeyRoot⟩ string_from_variant "ref"
        = Except.error (FlatpakMetadataError.IncorrectFormat "ref") :=
  ⟨rfl, rfl,
    c1_first_match_governs string_from_variant ⟨dupKeyRoot⟩ "ref" []
      wrongTypedRefEntry [goodRefEntry] rfl (by simp) rfl rfl⟩

/-- C2: a root tuple of the 6-field schema whose metadata entries are
containers of two children and whose checksum field is an array of 32
bytes loads successfully, and `get_hash` on the resulting bundle is the
64-character lowercase hex encoding of those 32 bytes. -/
theorem c2_load_success_hash (es : List Value) (bs : List Nat)
    (f1 f2 f4 f5 : Value) (v : Value)
    (hv : v = Value.tuple [Value.array es, f1, f2,
        Value.array (bs.map Value.byteV), f4, f5])
    (hes : ∀ e ∈ es, goodMetadataChild e = true)
    (hlen : bs.length = 32)
    (hbs : ∀ b ∈ bs, b < 256) :
    FlatpakFile.load v = Except.ok ⟨v⟩
    ∧ FlatpakFile.get_hash ⟨v⟩ = some (hexEncode bs)
    ∧ (hexEncode bs).length = 64
    ∧ ∀ c ∈ (hexEncode bs).data, isLowerHexChar c = true := by
  subst hv
  refine ⟨?_, ?_, ?_, hexEncode_chars bs hbs⟩
  · apply loadList_ok_of_valid
    · rfl
    · exact metadataCheckList_ok_of_all_good es hes
    · rfl
    · show (Value.array (bs.map Value.byteV)).n_children = 32
      simp [Value.n_children, Value.children, hlen]
  · show (bytes_from_variant (Value.array (bs.map Value.byteV))).map hexEncode
      = some (hexEncode bs)
    rw [bytes_from_variant_map]
    rfl
  · rw [hexEncode_length, hlen]

/-- Witness for C2: the all-zero 32-byte checksum; the hash is 64 zero
characters. -/
theorem c2_witness :
    (∀ e ∈ [goodRefEntry], goodMetadataChild e = true)
    ∧ (List.replicate 32 (0 : Nat)).length = 32
    ∧ (∀ b ∈ List.replicate 32 (0 : Nat), b < 256)
    ∧ FlatpakFile.load boxedRefRoot = Except.ok ⟨boxedRefRoot⟩
    ∧ FlatpakFile.get_hash ⟨boxedRefRoot⟩ = some (hexEncode (List.replicate 32 0))
    ∧ (hexEncode (List.replicate 32 0)).length = 64
    ∧ ∀ c ∈ (hexEncode (List.replicate 32 0)).data, isLowerHexChar c = true := by
  have h := c2_load_success_hash [goodRefEntry] (List.replicate 32 0)
    (Value.uint64V 0) (Value.array []) (Value.uint64V 0) (Value.uint64V 0)
    boxedRefRoot (by rfl) (by decide) (by decide) (by decide)
  exact ⟨by decide, by decide, by decide, h.1, h.2.1, h.2.2.1, h.2.2.2⟩

/-- C3: with a container metadata field, the first (in index order)
metadata entry that is not a two-child container makes `load` fail with
MetadataChildNotContainer, whatever entries follow it. -/
theorem c3_first_bad_metadata_entry (v : Value) (pre : List Value)
    (bad : Value) (rest : List Value)
    (hc : (v.child_value 0).is_container = true)
    (hm : (v.child_value 0).children = pre ++ bad :: rest)
    (hpre : ∀ e ∈ pre, goodMetadataChild e = true)
    (hbad : goodMetadataChild bad = false) :
    FlatpakFile.load v
      = Except.error FlatpakDecodingError.MetadataChildNotContainer := by
  rw [load_eq_loadList]
  unfold loadList
  rw [hc, hm, metadataCheckList_append_good pre _ hpre,
    metadataCheckList_cons_bad bad rest hbad]
  rfl

/-- Witness for C3: a metadata array holding one good entry, then a
three-child tuple, then an entry that is not on purpose inspected; the
checksum is valid, yet `load` fails with MetadataChildNotContainer. -/
theorem c3_witness :
    ((Value.tuple [Value.array [goodRefEntry,
        Value.tuple [Value.uint64V 1, Value.uint64V 2, Value.uint64V 3],
        Value.uint64V 9], Value.uint64V 0, Value.array [],
        Value.array (List.replicate 32 (Value.byteV 0)),
        Value.uint64V 0, Value.uint64V 0]).child_value 0).is_container = true
    ∧ goodMetadataChild (Value.tuple [Value.uint64V 1, Value.uint64V 2, Value.uint64V 3]) = false
    ∧ FlatpakFile.load (Value.tuple [Value.array [goodRefEntry,
        Value.tuple [Value.uint64V 1, Value.uint64V 2, Value.uint64V 3],
        Value.uint64V 9], Value.uint64V 0, Value.array [],
        Value.array (List.replicate 32 (Value.byteV 0)),
        Value.uint64V 0, Value.uint64V 0])
      = Except.error FlatpakDecodingError.MetadataChildNotContainer :=
  ⟨rfl, by decide,
    c3_first_bad_metadata_entry _ [goodRefEntry]
      (Value.tuple [Value.uint64V 1, Value.uint64V 2, Value.uint64V 3])
      [Value.uint64V 9] rfl rfl (by decide) (by decide)⟩

/-- C4: once the metadata checks pass, a container checksum field with
a child count other than 32 makes `load` fail with BadChecksumLength,
and with exactly 32 children `load` succeeds, so no checksum-related
failure occurs. -/
theorem c4_checksum_length (v : Value)
    (hc : (v.child_value 0).is_container = true)
    (hok : ∀ e ∈ (v.child_value 0).children, goodMetadataChild e = true) :
    ((v.child_value 3).is_container = true → (v.child_value 3).n_children ≠ 32 →
      FlatpakFile.load v = Except.error FlatpakDecodingError.BadChecksumLength)
    ∧ ((v.child_value 3).is_container = true → (v.child_value 3).n_children = 32 →
      FlatpakFile.load v = Except.ok ⟨v⟩) := by
  constructor
  · intro h3c h3n
    rw [load_eq_loadList]
    unfold loadList
    rw [hc, metadataCheckList_ok_of_all_good _ hok]
    simp [h3c, h3n]
  · intro h3c h3n
    exact loadList_ok_of_valid v hc (metadataCheckList_ok_of_all_good _ hok) h3c h3n

/-- Witness for C4: a 31-element checksum is rejected with
BadChecksumLength. -/
theorem c4_witness :
    (shortChecksumRoot.child_value 0).is_container = true
    ∧ (∀ e ∈ (shortChecksumRoot.child_value 0).children, goodMetadataChild e = true)
    ∧ (shortChecksumRoot.child_value 3).is_container = true
    ∧ (shortChecksumRoot.child_value 3).n_children ≠ 32
    ∧ FlatpakFile.load shortChecksumRoot
        = Except.error FlatpakDecodingError.BadChecksumLength :=
  ⟨rfl, by decide, rfl, by decide,
    (c4_checksum_length shortChecksumRoot rfl (by decide)).1 rfl (by decide)⟩

/-- C5: when the field at index 0 is not a container, `load` fails with
MetadataNotContainer; nothing else about the value matters, so the
metadata entries and the checksum are never inspected. -/
theorem c5_metadata_not_container (v : Value)
    (h : (v.child_value 0).is_container = false) :
    FlatpakFile.load v
      = Except.error FlatpakDecodingError.MetadataNotContainer := by
  rw [load_eq_loadList]
  unfold loadList
  rw [h]
  rfl

/-- Witness for C5: a scalar metadata field wins over a checksum that
is also invalid; the reported error is MetadataNotContainer. -/
theorem c5_witness :
    (scalarMetadataRoot.child_value 0).is_container = false
    ∧ (scalarMetadataRoot.child_value 3).n_children ≠ 32
    ∧ FlatpakFile.load scalarMetadataRoot
        = Except.error FlatpakDecodingError.MetadataNotContainer :=
  ⟨rfl, by decide, c5_metadata_not_container scalarMetadataRoot rfl⟩

/-- C6: when no metadata entry matches the requested key, entries whose
key child does not decode as a string being skipped rather than
reported, `get_metadata_key` returns MissingKey carrying exactly the
requested key. -/
theorem c6_missing_key {α : Type} (dec : Value → Option α)
    (f : FlatpakFile) (key : String)
    (h : ∀ e ∈ (f.root.child_value 0).children, entryMatchesKey e key = false) :
    f.get_metadata_key dec key
      = Except.error (FlatpakMetadataError.MissingKey key) := by
  rw [get_metadata_key_eq_lookupList]
  exact lookupList_missing_of_no_match dec key _ h

/-- Witness for C6: a metadata array with a non-string key entry and an
entry under a different key; looking up "ref" reports MissingKey
"ref". -/
theorem c6_witness :
    (∀ e ∈ ((⟨noRefRoot⟩ : FlatpakFile).root.child_value 0).children,
      entryMatchesKey e "ref" = false)
    ∧ FlatpakFile.get_metadata_key ⟨noRefRoot⟩ string_from_variant "ref"
        = Except.error (FlatpakMetadataError.MissingKey "ref") :=
  ⟨by decide, c6_missing_key string_from_variant ⟨noRefRoot⟩ "ref" (by decide)⟩

/-- C7: the unwrap-boxed-once step returns the payload of a boxed value
and passes any unboxed value through unchanged, so two bundles whose
metadata differ only in boxing a matched value zero times or one time
give the same `get_metadata_key` result. -/
theorem c7_box_transparent {α : Type} (dec : Value → Option α)
    (key : String) (k0 x : Value) (pre rest : List Value)
    (f g : FlatpakFile)
    (hf : (f.root.child_value 0).children = pre ++ Value.dictEntry k0 x :: rest)
    (hg : (g.root.child_value 0).children
        = pre ++ Value.dictEntry k0 (Value.boxed x) :: rest)
    (hx : x.as_variant = none) :
    (∀ y, unwrap_boxed_once (Value.boxed y) = y)
    ∧ unwrap_boxed_once x = x
    ∧ f.get_metadata_key dec key = g.get_metadata_key dec key := by
  have hpass : unwrap_boxed_once x = x := by
    unfold unwrap_boxed_once
    rw [hx]
  refine ⟨fun y => rfl, hpass, ?_⟩
  rw [get_metadata_key_eq_lookupList, get_metadata_key_eq_lookupList, hf, hg]
  apply lookupList_congr_suffix
  cases hsv : string_from_variant k0 with
  | none =>
    have e1 : entryMatchesKey (Value.dictEntry k0 x) key = false := by
      simp [entryMatchesKey, Value.child_value, Value.children, hsv]
    have e2 : entryMatchesKey (Value.dictEntry k0 (Value.boxed x)) key = false := by
      simp [entryMatchesKey, Value.child_value, Value.children, hsv]
    rw [lookupList_cons_skip dec key _ rest e1,
      lookupList_cons_skip dec key _ rest e2]
  | some ck =>
    by_cases hck : ck = key
    · subst hck
      rw [lookupList_cons_match dec ck (Value.dictEntry k0 x) rest (by exact hsv),
        lookupList_cons_match dec ck (Value.dictEntry k0 (Value.boxed x)) rest
          (by exact hsv)]
      rw [show unwrap_boxed_once ((Value.dictEntry k0 x).child_value 1) = x
          from hpass,
        show unwrap_boxed_once ((Value.dictEntry k0 (Value.boxed x)).child_value 1) = x
          from rfl]
    · have e1 : entryMatchesKey (Value.dictEntry k0 x) key = false := by
        simp [entryMatchesKey, Value.child_value, Value.children, hsv, hck]
      have e2 : entryMatchesKey (Value.dictEntry k0 (Value.boxed x)) key = false := by
        simp [entryMatchesKey, Value.child_value, Value.children, hsv, hck]
      rw [lookupList_cons_skip dec key _ rest e1,
        lookupList_cons_skip dec key _ rest e2]

/-- Witness for C7: the same `"ref"` lookup succeeds identically on a
bundle storing the string bare and on one boxing it once. -/
theorem c7_witness :
    ((⟨unboxedRefRoot⟩ : FlatpakFile).root.child_value 0).children
        = [] ++ Value.dictEntry (Value.stringV "ref") (Value.stringV "app/x/y/z") :: []
    ∧ ((⟨boxedRefRoot⟩ : FlatpakFile).root.child_value 0).children
        = [] ++ Value.dictEntry (Value.stringV "ref")
            (Value.boxed (Value.stringV "app/x/y/z")) :: []
    ∧ (Value.stringV "app/x/y/z").as_variant = none
    ∧ FlatpakFile.get_metadata_key ⟨unboxedRefRoot⟩ string_from_variant "ref"
        = FlatpakFile.get_metadata_key ⟨boxedRefRoot⟩ string_from_variant "ref"
    ∧ FlatpakFile.get_metadata_key ⟨unboxedRefRoot⟩ string_from_variant "ref"
        = Except.ok "app/x/y/z" :=
  ⟨rfl, rfl, rfl,
    (c7_box_transparent string_from_variant "ref" (Value.stringV "ref")
      (Value.stringV "app/x/y/z") [] [] ⟨unboxedRefRoot⟩ ⟨boxedRefRoot⟩
      rfl rfl rfl).2.2,
    (get_metadata_key_eq_lookupList ⟨unboxedRefRoot⟩ string_from_variant "ref").trans rfl⟩

/-- C8: a bundle produced by a successful `load` call whose checksum
field is, as the schema guarantees, an array of byte values, always
yields a hash: the byte-sequence decode that `get_hash` unwraps
succeeds and produces the 64-character hex string. -/
theorem c8_get_hash_total (v : Value) (f : FlatpakFile) (bs : List Nat)
    (hload : FlatpakFile.load v = Except.ok f)
    (hck : v.child_value 3 = Value.array (bs.map Value.byteV)) :
    f.get_hash = some (hexEncode bs) ∧ (hexEncode bs).length = 64 := by
  obtain ⟨hroot, -, -, h32⟩ := load_ok_inv v f hload
  constructor
  · unfold FlatpakFile.get_hash
    rw [hroot, hck, bytes_from_variant_map]
    rfl
  · rw [hck] at h32
    simp only [Value.n_children, Value.children, List.length_map] at h32
    rw [hexEncode_length, h32]

/-- Witness for C8: the all-zero bundle loads and hashes to a string of
length 64. -/
theorem c8_witness :
    FlatpakFile.load zeroHashRoot = Except.ok ⟨zeroHashRoot⟩
    ∧ zeroHashRoot.child_value 3
        = Value.array ((List.replicate 32 0).map Value.byteV)
    ∧ FlatpakFile.get_hash ⟨zeroHashRoot⟩ = some (hexEncode (List.replicate 32 0))
    ∧ (hexEncode (List.replicate 32 0)).length = 64 :=
  ⟨(load_eq_loadList zeroHashRoot).trans rfl, rfl,
    (c8_get_hash_total zeroHashRoot ⟨zeroHashRoot⟩ (List.replicate 32 0)
      ((load_eq_loadList zeroHashRoot).trans rfl) rfl).1,
    (c8_get_hash_total zeroHashRoot ⟨zeroHashRoot⟩ (List.replicate 32 0)
      ((load_eq_loadList zeroHashRoot).trans rfl) rfl).2⟩

/-- C9: `load` never produces the IncorrectFormat variant: every result
is a success or one of MetadataNotContainer, MetadataChildNotContainer,
BadChecksumLength. -/
theorem c9_load_error_taxonomy (v : Value) :
    FlatpakFile.load v ≠ Except.error FlatpakDecodingError.IncorrectFormat
    ∧ ((∃ f, FlatpakFile.load v = Except.ok f)
      ∨ FlatpakFile.load v = Except.error FlatpakDecodingError.MetadataNotContainer
      ∨ FlatpakFile.load v = Except.error FlatpakDecodingError.MetadataChildNotContainer
      ∨ FlatpakFile.load v = Except.error FlatpakDecodingError.BadChecksumLength) := by
  have hcases := loadList_result_cases v
  rw [← load_eq_loadList v] at hcases
  refine ⟨?_, hcases⟩
  rcases hcases with ⟨f, hf⟩ | hf | hf | hf <;> simp [hf]

/-- Witness for C9 at a concrete rejected input. -/
theorem c9_witness :
    FlatpakFile.load scalarMetadataRoot
        ≠ Except.error FlatpakDecodingError.IncorrectFormat
    ∧ ((∃ f, FlatpakFile.load scalarMetadataRoot = Except.ok f)
      ∨ FlatpakFile.load scalarMetadataRoot
          = Except.error FlatpakDecodingError.MetadataNotContainer
      ∨ FlatpakFile.load scalarMetadataRoot
          = Except.error FlatpakDecodingError.MetadataChildNotContainer
      ∨ FlatpakFile.load scalarMetadataRoot
          = Except.error FlatpakDecodingError.BadChecksumLength) :=
  c9_load_error_taxonomy scalarMetadataRoot

/-- C10: the bundle whose `"ref"` metadata value is the sole component
`"app"` is accepted by `load`, the ref lookup succeeds, the split
yields a single component, and the component checks of
`verify_and_upload_game` hit an out-of-bounds index (a panic) instead
of returning an error. -/
theorem c10_short_ref_panics :
    FlatpakFile.load shortRefRoot = Except.ok ⟨shortRefRoot⟩
    ∧ FlatpakFile.get_metadata_key ⟨shortRefRoot⟩ string_from_variant "ref"
        = Except.ok "app"
    ∧ rustSplit "app" '/' = ["app"]
    ∧ verifyRefComponents "0000" "app" = RefCheckOutcome.panicked :=
  ⟨(load_eq_loadList shortRefRoot).trans rfl,
    (get_metadata_key_eq_lookupList ⟨shortRefRoot⟩ string_from_variant "ref").trans rfl,
    rfl, rfl⟩

end Devcade
